import Mathlib

/-!
Shallow embedding of `src/research_server_cloud.py` (research-mcp-server).

The program exposes four operations over a flat on-disk store of JSON files:
`search_papers`, `extract_info`, `list_paper_folders` and
`create_search_prompt`.  The filesystem is modelled as an explicit state
(`FS`): a list of existing directories plus an association list from file
paths to their contents.  File contents are modelled as parsed JSON values
(`JsonVal`) rather than byte strings, since the program only ever writes
files with `json.dump` and reads them with `json.load`, which round-trip for
the values involved.  The external arXiv provider and the possibility of
filesystem faults are modelled by an explicit environment (`Env`) passed to
`search_papers`: the outcome of `search.results()` and per-path write
failures are oracles, matching the fact that they are external to the code
under verification.
-/

set_option maxHeartbeats 1000000
set_option linter.unusedVariables false

/-- JSON values as produced by Python's `json` module.  Floating-point
numbers are modelled as integers; no field this program writes or inspects is
numeric, so the distinction is never exercised. -/
inductive JsonVal where
  | str (s : String)
  | arr (xs : List JsonVal)
  | obj (kvs : List (String × JsonVal))
  | num (n : Int)
  | bool (b : Bool)
  | null
deriving Repr

/-- Python `repr` of a JSON value, as rendered inside `str()` of containers.
Quote-escaping inside strings is elided: every record this program writes
stores plain strings and lists of strings, so the elided cases are never
reached by any claim. -/
def pyRepr : JsonVal → String
  | .str s => "\x27" ++ s ++ "\x27"
  | .arr xs => "[" ++ String.intercalate ", " (xs.attach.map (fun x => pyRepr x.1)) ++ "]"
  | .obj kvs =>
      "\x7b" ++
        String.intercalate ", "
          (kvs.attach.map (fun kv => "\x27" ++ kv.1.1 ++ "\x27: " ++ pyRepr kv.1.2)) ++
      "\x7d"
  | .num n => toString n
  | .bool b => if b then "True" else "False"
  | .null => "None"
decreasing_by
  · simp_wf
    have h1 := List.sizeOf_lt_of_mem x.2
    omega
  · simp_wf
    have h1 := List.sizeOf_lt_of_mem kv.2
    have h2 : sizeOf kv.1.2 < sizeOf kv.1 := by
      obtain ⟨⟨a, b⟩, hmem⟩ := kv
      simp only [Prod.mk.sizeOf_spec]
      omega
    omega

/-- Python `str()` conversion as applied by an f-string interpolation slot. -/
def pyStr : JsonVal → String
  | .str s => s
  | v => pyRepr v

/-- Python subscription `value[key]` on a JSON value: a lookup in a dict,
a `KeyError` (whose `str()` is the quoted key) when the key is absent, and a
`TypeError` on non-dict values.  `json.load` never produces dicts with
duplicate keys, so the first-match lookup agrees with Python's dict. -/
def subscriptField (v : JsonVal) (k : String) : Except String JsonVal :=
  match v with
  | .obj kvs =>
      match kvs.find? (fun kv => kv.1 = k) with
      | some kv => .ok kv.2
      | none => .error ("\x27" ++ k ++ "\x27")
  | _ => .error "value is not subscriptable by string"

/-- Helper for Python `", ".join` over a list: succeeds only when every
element is a string. -/
def allStrings : List JsonVal → Option (List String)
  | [] => some []
  | .str s :: rest => (allStrings rest).map (fun ss => s :: ss)
  | _ :: _ => none

/-- Python `", ".join(value)`: joins a list of strings, iterates a string as
its one-character substrings, iterates a dict as its keys, and raises a
`TypeError` otherwise (its message text is abbreviated here; no record this
program writes reaches it). -/
def pyJoin (v : JsonVal) : Except String String :=
  match v with
  | .str s => .ok (String.intercalate ", " (s.toList.map String.singleton))
  | .arr xs =>
      match allStrings xs with
      | some ss => .ok (String.intercalate ", " ss)
      | none => .error "sequence item: expected str instance"
  | .obj kvs => .ok (String.intercalate ", " (kvs.map (fun kv => kv.1)))
  | _ => .error "can only join an iterable"

/-- Keys of a JSON object, in order; `[]` on non-objects. -/
def objKeys : JsonVal → List String
  | .obj kvs => kvs.map (fun kv => kv.1)
  | _ => []

/-- Filesystem state: the set of directories that exist, and an association
list from file paths to (parsed) file contents. -/
structure FS where
  dirs : List String
  files : List (String × JsonVal)

/-- Paths of the files that exist. -/
def FS.keys (fs : FS) : List String := fs.files.map (fun kv => kv.1)

/-- Reading a file: `open` + `json.load`, as an association-list lookup. -/
def FS.readFile (fs : FS) (path : String) : Option JsonVal :=
  (fs.files.find? (fun kv => kv.1 = path)).map (fun kv => kv.2)

/-- Writing a file with `open(filename, "w")` + `json.dump`: truncates and
replaces an existing file at the path, creates the file otherwise. -/
def FS.writeFile (fs : FS) (path : String) (v : JsonVal) : FS :=
  if path ∈ fs.keys then
    { fs with files := fs.files.map (fun kv => if kv.1 = path then (path, v) else kv) }
  else
    { fs with files := fs.files ++ [(path, v)] }

/-- Source line `os.makedirs(PAPER_DIR, exist_ok=True)`. -/
def FS.mkdir (fs : FS) (d : String) : FS :=
  if d ∈ fs.dirs then fs else { fs with dirs := d :: fs.dirs }

/-- Source line `PAPER_DIR = "papers"`. -/
def PAPER_DIR : String := "papers"

/-- Publication date, the input to `strftime` in `search_papers`. -/
structure PubDate where
  year : Nat
  month : Nat
  day : Nat

/-- Two-digit zero padding, as `%m` and `%d`. -/
def pad2 (n : Nat) : String := if n < 10 then "0" ++ toString n else toString n

/-- Four-digit zero padding, as `%Y`. -/
def pad4 (n : Nat) : String :=
  if n < 10 then "000" ++ toString n
  else if n < 100 then "00" ++ toString n
  else if n < 1000 then "0" ++ toString n
  else toString n

/-- Source expression `paper.published.strftime("%Y-%m-%d")`. -/
def strftimeYMD (d : PubDate) : String :=
  pad4 d.year ++ "-" ++ pad2 d.month ++ "-" ++ pad2 d.day

/-- One result of the external arXiv query, with the fields `search_papers`
reads from it.  `authors` already carries `str(author)` for each author. -/
structure ArxivPaper where
  shortId : String
  title : String
  authors : List String
  summary : String
  published : PubDate
  pdfUrl : String
  categories : List String

/-- Source lines 30-37: the `paper_info` dict built for one result, in
insertion order. -/
def paperInfoJson (p : ArxivPaper) : JsonVal :=
  .obj [("title", .str p.title),
        ("authors", .arr (p.authors.map .str)),
        ("abstract", .str p.summary),
        ("published", .str (strftimeYMD p.published)),
        ("url", .str p.pdfUrl),
        ("categories", .arr (p.categories.map .str))]

/-- Source line 41: `f"{PAPER_DIR}/{paper.get_short_id()}.json"`. -/
def paperFilename (p : ArxivPaper) : String :=
  PAPER_DIR ++ "/" ++ p.shortId ++ ".json"

/-- Environment of one `search_papers` call: the outcome of iterating
`search.results()` (a list of results, or the message of the exception it
raised), whether `os.makedirs` fails, and for each path whether writing it
fails. -/
structure Env where
  provider : Except String (List ArxivPaper)
  mkdirErr : Option String
  writeErr : String → Option String

/-- Source lines 28-43: the result loop of `search_papers`.  Each iteration
builds `paper_info`, appends it to `papers`, and writes it to the paper file;
a failing write aborts the loop keeping the files already written.  Returns
the error message if any, the filesystem, and `len(papers)`. -/
def savePapers (env : Env) : List ArxivPaper → FS → Nat → Option String × FS × Nat
  | [], fs, n => (none, fs, n)
  | p :: ps, fs, n =>
      match env.writeErr (paperFilename p) with
      | some e => (some e, fs, n + 1)
      | none => savePapers env ps (fs.writeFile (paperFilename p) (paperInfoJson p)) (n + 1)

/-- Source lines 16-48: `search_papers(topic, max_results=5)`.  The whole
body runs inside `try`, so every failure is rendered as the
`"Error searching papers: ..."` string; the provider receives `topic` and
`max_results` externally, so its outcome is the oracle `env.provider`. -/
def search_papers (topic : String) (max_results : Nat) (env : Env) (fs : FS) : String × FS :=
  match env.mkdirErr with
  | some e => ("Error searching papers: " ++ e, fs)
  | none =>
      let fs1 := fs.mkdir PAPER_DIR
      match env.provider with
      | .error e => ("Error searching papers: " ++ e, fs1)
      | .ok results =>
          match savePapers env results fs1 0 with
          | (some e, fs2, _) => ("Error searching papers: " ++ e, fs2)
          | (none, fs2, n) =>
              ("Found " ++ toString n ++ " papers on \x27" ++ topic ++
                 "\x27. Papers saved to " ++ PAPER_DIR ++ "/ directory.", fs2)

/-- Source line 54: `f"{PAPER_DIR}/{paper_id}.json"`, the only path
`extract_info` consults; `paper_id` is interpolated without validation. -/
def extract_filename (paper_id : String) : String :=
  PAPER_DIR ++ "/" ++ paper_id ++ ".json"

/-- Source lines 51-74: `extract_info(paper_id, info_type="summary")`.
Missing file gives the not-found string; otherwise the record is projected
according to `info_type`, any exception being rendered as the
`"Error extracting info: ..."` string. -/
def extract_info (fs : FS) (paper_id : String) (info_type : String) : String :=
  match fs.readFile (extract_filename paper_id) with
  | none => "Paper " ++ paper_id ++ " not found. Please search for papers first."
  | some paper =>
      let res : Except String String :=
        if info_type = "summary" then do
          let title ← subscriptField paper "title"
          let authorsVal ← subscriptField paper "authors"
          let authorsStr ← pyJoin authorsVal
          let abst ← subscriptField paper "abstract"
          pure ("Title: " ++ pyStr title ++ "\nAuthors: " ++ authorsStr ++
                "\nAbstract: " ++ pyStr abst)
        else if info_type = "authors" then do
          let authorsVal ← subscriptField paper "authors"
          let authorsStr ← pyJoin authorsVal
          pure ("Authors: " ++ authorsStr)
        else if info_type = "abstract" then do
          let abst ← subscriptField paper "abstract"
          pure (pyStr abst)
        else if info_type = "url" then do
          let u ← subscriptField paper "url"
          pure (pyStr u)
        else
          pure "Available info types: summary, authors, abstract, url"
      match res with
      | .ok s => s
      | .error e => "Error extracting info: " ++ e

/-- The path-separator character `/`. -/
def slashChar : Char := Char.ofNat 47

/-- Splitting a character list at every occurrence of a separator, keeping
empty pieces, as Python `str.split` with a one-character separator. -/
def splitChars (c : Char) : List Char → List (List Char)
  | [] => [[]]
  | ch :: rest =>
      match splitChars c rest with
      | [] => [[]]
      | hd :: tl => if ch = c then [] :: hd :: tl else (ch :: hd) :: tl

/-- Components of a path string between `/` separators. -/
def splitSlash (p : String) : List String :=
  (splitChars slashChar p.toList).map (fun cs => String.mk cs)

/-- Python `s.endswith(suf)`. -/
def strEndsWith (s suf : String) : Bool := suf.data.isSuffixOf s.data

/-- Test for a `pre` being a leading piece of `s`, used to state that a path
lies under a directory. -/
def strStartsWith (s pre : String) : Bool := pre.data.isPrefixOf s.data

/-- Entries `os.listdir(PAPER_DIR)` returns in our model: names lying
directly under the directory, whether files or subdirectories. -/
def listdirNames (fs : FS) (dir : String) : List String :=
  (fs.keys ++ fs.dirs).filterMap (fun p =>
    match splitSlash p with
    | [d, name] => if d = dir ∧ name ≠ "" then some name else none
    | _ => none)

/-- Source lines 77-92: `list_paper_folders()`. -/
def list_paper_folders (fs : FS) : String :=
  if PAPER_DIR ∈ fs.dirs then
    let files := listdirNames fs PAPER_DIR
    let json_files := files.filter (fun f => strEndsWith f ".json")
    if json_files = [] then
      "No papers found. Search for papers first."
    else
      "Found " ++ toString json_files.length ++ " papers: " ++
        String.intercalate ", " json_files
  else
    "No papers directory found. Search for papers first."

/-- Source lines 97-98 of the prompt template: the leading line naming the
topic. -/
def promptIntro (topic : String) : String :=
  "\nResearch Prompt for: " ++ topic ++ "\n\n"

/-- Source lines 100-103: section 1 of the template. -/
def searchStrategySection (topic : String) : String :=
  "1. Search Strategy:\n   - Primary keywords: " ++ topic ++
    "\n   - Related terms to explore\n   - Timeline considerations\n\n"

/-- Source lines 105-109: section 2 of the template. -/
def keyQuestionsSection (topic : String) : String :=
  "2. Key Questions to Investigate:\n   - What are the current developments in " ++
    topic ++
    "?\n   - Who are the leading researchers?\n   - What are the main challenges?\n   - What are the recent breakthroughs?\n\n"

/-- Source lines 111-115: section 3 of the template (no topic slot). -/
def analysisFrameworkSection : String :=
  "3. Analysis Framework:\n   - Compare different approaches\n   - Identify trends and patterns\n   - Note controversial areas\n   - Find gaps in current research\n\n"

/-- Source lines 117-122: section 4 of the template (no topic slot). -/
def outputGoalsSection : String :=
  "4. Output Goals:\n   - Summarize key findings\n   - Identify most influential papers\n   - Create research roadmap\n   - Suggest future directions\n"

/-- Source lines 95-122: `create_search_prompt(topic)`, the template with
`topic` spliced into its slots; the concatenation of the four sections is
letter-for-letter the Python triple-quoted f-string. -/
def create_search_prompt (topic : String) : String :=
  promptIntro topic ++ searchStrategySection topic ++ keyQuestionsSection topic ++
    analysisFrameworkSection ++ outputGoalsSection

/-- Substring containment, used to state where the topic occurs. -/
def ContainsSub (needle hay : String) : Prop :=
  ∃ pre post, hay = pre ++ needle ++ post

/-- Components of a path. -/
def splitPath (p : String) : List String := splitSlash p

/-- One step of lexical POSIX path resolution on a component stack (kept in
reverse order): `.` and empty components vanish, `..` pops the previous
component of a relative path or accumulates at the front. -/
def resolveStep (acc : List String) (comp : String) : List String :=
  if comp = "." ∨ comp = "" then acc
  else if comp = ".." then
    match acc with
    | [] => [".."]
    | a :: rest => if a = ".." then comp :: acc else rest
  else comp :: acc

/-- Lexical normalization of a relative path: the path actually addressed
once `..` components take effect. -/
def normalizePath (p : String) : String :=
  String.intercalate "/" (((splitPath p).foldl resolveStep []).reverse)

/-! ### Store lemmas: reading and writing the association-list filesystem -/

/-- Updating the entry at `path` in place makes `find?` for `path` return the
new entry. -/
theorem findUpd_self (l : List (String × JsonVal)) (path : String) (v : JsonVal)
    (h : path ∈ l.map (fun kv => kv.1)) :
    (l.map (fun kv => if kv.1 = path then (path, v) else kv)).find? (fun kv => kv.1 = path) =
      some (path, v) := by
  induction l with
  | nil => simp at h
  | cons hd tl ih =>
      rw [List.map_cons]
      by_cases hh : hd.1 = path
      · rw [if_pos hh, List.find?_cons_of_pos _ (by simp)]
      · have h2 : path ∈ tl.map (fun kv => kv.1) := by
          rw [List.map_cons] at h
          rcases List.mem_cons.mp h with h1 | h1
          · exact absurd h1.symm hh
          · exact h1
        rw [if_neg hh, List.find?_cons_of_neg _ (by simp [hh])]
        exact ih h2

/-- Appending a fresh entry at `path` makes `find?` for `path` return it. -/
theorem findApp_self (l : List (String × JsonVal)) (path : String) (v : JsonVal)
    (h : path ∉ l.map (fun kv => kv.1)) :
    (l ++ [(path, v)]).find? (fun kv => kv.1 = path) = some (path, v) := by
  induction l with
  | nil => simp
  | cons hd tl ih =>
      have hh : ¬ hd.1 = path := by
        intro hc
        exact h (by rw [List.map_cons, hc]; exact List.mem_cons_self _ _)
      have h2 : path ∉ tl.map (fun kv => kv.1) := by
        intro hc
        exact h (by rw [List.map_cons]; exact List.mem_cons_of_mem _ hc)
      rw [List.cons_append, List.find?_cons_of_neg _ (by simp [hh])]
      exact ih h2

/-- An in-place update at `path` does not change `find?` for other keys. -/
theorem findUpd_ne (l : List (String × JsonVal)) (path q : String) (v : JsonVal)
    (hne : q ≠ path) :
    (l.map (fun kv => if kv.1 = path then (path, v) else kv)).find? (fun kv => kv.1 = q) =
      l.find? (fun kv => kv.1 = q) := by
  induction l with
  | nil => simp
  | cons hd tl ih =>
      rw [List.map_cons]
      by_cases hh : hd.1 = path
      · rw [if_pos hh,
            List.find?_cons_of_neg _ (by simp [Ne.symm hne]),
            List.find?_cons_of_neg _ (by simp [hh, Ne.symm hne])]
        exact ih
      · by_cases h2 : hd.1 = q
        · rw [if_neg hh,
              List.find?_cons_of_pos _ (by simp [h2]),
              List.find?_cons_of_pos _ (by simp [h2])]
        · rw [if_neg hh,
              List.find?_cons_of_neg _ (by simp [h2]),
              List.find?_cons_of_neg _ (by simp [h2])]
          exact ih

/-- Appending a fresh entry at `path` does not change `find?` for other
keys. -/
theorem findApp_ne (l : List (String × JsonVal)) (path q : String) (v : JsonVal)
    (hne : q ≠ path) :
    (l ++ [(path, v)]).find? (fun kv => kv.1 = q) = l.find? (fun kv => kv.1 = q) := by
  induction l with
  | nil => simp [Ne.symm hne]
  | cons hd tl ih =>
      by_cases h2 : hd.1 = q
      · rw [List.cons_append,
            List.find?_cons_of_pos _ (by simp [h2]),
            List.find?_cons_of_pos _ (by simp [h2])]
      · rw [List.cons_append,
            List.find?_cons_of_neg _ (by simp [h2]),
            List.find?_cons_of_neg _ (by simp [h2])]
        exact ih

/-- Writing leaves the key list unchanged when the path exists, and appends
the path otherwise. -/
theorem FS.keys_writeFile (fs : FS) (path : String) (v : JsonVal) :
    (fs.writeFile path v).keys =
      if path ∈ fs.keys then fs.keys else fs.keys ++ [path] := by
  unfold FS.writeFile
  split
  · simp only [FS.keys, List.map_map]
    apply List.map_congr_left
    intro kv hkv
    by_cases h2 : kv.1 = path
    · simp [Function.comp, h2]
    · simp [Function.comp, h2]
  · simp [FS.keys]

/-- Membership in the key list is preserved by any write. -/
theorem FS.mem_keys_writeFile_of_mem (fs : FS) (path q : String) (v : JsonVal)
    (h : q ∈ fs.keys) : q ∈ (fs.writeFile path v).keys := by
  rw [FS.keys_writeFile]
  split <;> simp [h]

/-- The written path is in the key list afterwards. -/
theorem FS.mem_keys_writeFile_self (fs : FS) (path : String) (v : JsonVal) :
    path ∈ (fs.writeFile path v).keys := by
  rw [FS.keys_writeFile]
  split
  · assumption
  · simp

/-- Writing to an existing path does not change the number of files. -/
theorem FS.length_writeFile_of_mem (fs : FS) (path : String) (v : JsonVal)
    (h : path ∈ fs.keys) : (fs.writeFile path v).files.length = fs.files.length := by
  unfold FS.writeFile
  rw [if_pos h]
  simp

/-- Reading back the path just written yields the value written: the record
is replaced wholesale, not merged. -/
theorem FS.readFile_writeFile_self (fs : FS) (path : String) (v : JsonVal) :
    (fs.writeFile path v).readFile path = some v := by
  unfold FS.writeFile FS.readFile
  split
  · rename_i hmem
    simp only
    rw [findUpd_self fs.files path v (by simpa [FS.keys] using hmem)]
    rfl
  · rename_i hmem
    simp only
    rw [findApp_self fs.files path v (by simpa [FS.keys] using hmem)]
    rfl

/-- Reading any other path is unaffected by a write. -/
theorem FS.readFile_writeFile_ne (fs : FS) (path q : String) (v : JsonVal)
    (hne : q ≠ path) : (fs.writeFile path v).readFile q = fs.readFile q := by
  unfold FS.writeFile FS.readFile
  split
  · simp only
    rw [findUpd_ne fs.files path q v hne]
  · simp only
    rw [findApp_ne fs.files path q v hne]

/-- Creating a directory does not touch the files. -/
theorem FS.files_mkdir (fs : FS) (d : String) : (fs.mkdir d).files = fs.files := by
  unfold FS.mkdir
  split <;> rfl

/-- Creating a directory makes it present. -/
theorem FS.mem_dirs_mkdir (fs : FS) (d : String) : d ∈ (fs.mkdir d).dirs := by
  unfold FS.mkdir
  split
  · assumption
  · simp

/-- Reading is unaffected by directory creation. -/
theorem FS.readFile_mkdir (fs : FS) (d : String) (path : String) :
    (fs.mkdir d).readFile path = fs.readFile path := by
  unfold FS.readFile
  rw [FS.files_mkdir]

/-- Key list is unaffected by directory creation. -/
theorem FS.keys_mkdir (fs : FS) (d : String) : (fs.mkdir d).keys = fs.keys := by
  unfold FS.keys
  rw [FS.files_mkdir]

/-! ### The save loop of `search_papers`, in its failure-free form -/

/-- The effect of the result loop on the store when no write fails: each
record is written under its filename, left to right. -/
def saveAllPure (rs : List ArxivPaper) (fs : FS) : FS :=
  rs.foldl (fun a p => a.writeFile (paperFilename p) (paperInfoJson p)) fs

/-- Unfolding `saveAllPure` over a first result. -/
theorem saveAllPure_cons (p : ArxivPaper) (ps : List ArxivPaper) (fs : FS) :
    saveAllPure (p :: ps) fs =
      saveAllPure ps (fs.writeFile (paperFilename p) (paperInfoJson p)) := rfl

/-- When no write fails, `savePapers` is the pure fold and counts every
result. -/
theorem savePapers_no_err (env : Env) (hw : ∀ s, env.writeErr s = none) :
    ∀ (rs : List ArxivPaper) (fs : FS) (n : Nat),
      savePapers env rs fs n = (none, saveAllPure rs fs, n + rs.length) := by
  intro rs
  induction rs with
  | nil => intro fs n; simp [savePapers, saveAllPure]
  | cons p ps ih =>
      intro fs n
      simp only [savePapers, hw (paperFilename p)]
      rw [ih, saveAllPure_cons]
      simp
      omega

/-- Keys only grow along the save loop. -/
theorem saveAllPure_mem_keys_of_mem (rs : List ArxivPaper) :
    ∀ (fs : FS) (q : String), q ∈ fs.keys → q ∈ (saveAllPure rs fs).keys := by
  induction rs with
  | nil => intro fs q h; exact h
  | cons hd tl ih =>
      intro fs q h
      rw [saveAllPure_cons]
      exact ih _ _ (FS.mem_keys_writeFile_of_mem _ _ _ _ h)

/-- Every processed record's filename is a key after the save loop. -/
theorem saveAllPure_mem_keys (rs : List ArxivPaper) (p : ArxivPaper) :
    ∀ fs : FS, p ∈ rs → paperFilename p ∈ (saveAllPure rs fs).keys := by
  induction rs with
  | nil => intro fs h; cases h
  | cons hd tl ih =>
      intro fs h
      rw [saveAllPure_cons]
      rcases List.mem_cons.mp h with h1 | h1
      · subst h1
        exact saveAllPure_mem_keys_of_mem tl _ _ (FS.mem_keys_writeFile_self fs _ _)
      · exact ih _ h1

/-- When every filename to be written already exists, the save loop does not
change the number of files. -/
theorem saveAllPure_length (rs : List ArxivPaper) :
    ∀ fs : FS, (∀ p ∈ rs, paperFilename p ∈ fs.keys) →
      (saveAllPure rs fs).files.length = fs.files.length := by
  induction rs with
  | nil => intro fs h; rfl
  | cons hd tl ih =>
      intro fs h
      have h1 : paperFilename hd ∈ fs.keys := h hd (List.mem_cons_self _ _)
      have h2 : ∀ p ∈ tl,
          paperFilename p ∈ (fs.writeFile (paperFilename hd) (paperInfoJson hd)).keys := by
        intro p hp
        exact FS.mem_keys_writeFile_of_mem _ _ _ _ (h p (List.mem_cons_of_mem _ hp))
      rw [saveAllPure_cons, ih _ h2, FS.length_writeFile_of_mem _ _ _ h1]

/-- Paths not written by the loop read back unchanged. -/
theorem saveAllPure_readFile_notmem (rs : List ArxivPaper) (path : String) :
    ∀ fs : FS, path ∉ rs.map paperFilename →
      (saveAllPure rs fs).readFile path = fs.readFile path := by
  induction rs with
  | nil => intro fs h; rfl
  | cons hd tl ih =>
      intro fs h
      have h1 : path ≠ paperFilename hd := by
        intro hc
        exact h (by rw [List.map_cons, hc]; exact List.mem_cons_self _ _)
      have h2 : path ∉ tl.map paperFilename := by
        intro hc
        exact h (by rw [List.map_cons]; exact List.mem_cons_of_mem _ hc)
      rw [saveAllPure_cons, ih _ h2, FS.readFile_writeFile_ne _ _ _ _ h1]

/-- Every written path reads back as the record of one of the results that
maps to it. -/
theorem saveAllPure_readFile_mem (rs : List ArxivPaper) (path : String) :
    ∀ fs : FS, path ∈ rs.map paperFilename →
      ∃ q, q ∈ rs ∧ paperFilename q = path ∧
        (saveAllPure rs fs).readFile path = some (paperInfoJson q) := by
  induction rs with
  | nil => intro fs h; simp at h
  | cons hd tl ih =>
      intro fs h
      by_cases h1 : path ∈ tl.map paperFilename
      · obtain ⟨q, hq1, hq2, hq3⟩ :=
          ih (fs.writeFile (paperFilename hd) (paperInfoJson hd)) h1
        exact ⟨q, List.mem_cons_of_mem _ hq1, hq2, by rw [saveAllPure_cons]; exact hq3⟩
      · have h2 : paperFilename hd = path := by
          rw [List.map_cons] at h
          rcases List.mem_cons.mp h with h3 | h3
          · exact h3.symm
          · exact absurd h3 h1
        refine ⟨hd, List.mem_cons_self _ _, h2, ?_⟩
        rw [saveAllPure_cons, saveAllPure_readFile_notmem tl path _ h1, ← h2]
        exact FS.readFile_writeFile_self _ _ _

/-- With pairwise-distinct filenames, each record reads back exactly. -/
theorem saveAllPure_readFile_nodup (rs : List ArxivPaper) (p : ArxivPaper) :
    ∀ fs : FS, p ∈ rs → (rs.map paperFilename).Nodup →
      (saveAllPure rs fs).readFile (paperFilename p) = some (paperInfoJson p) := by
  induction rs with
  | nil => intro fs h _; cases h
  | cons hd tl ih =>
      intro fs hmem hnd
      rw [List.map_cons, List.nodup_cons] at hnd
      rcases List.mem_cons.mp hmem with h1 | h1
      · subst h1
        rw [saveAllPure_cons, saveAllPure_readFile_notmem tl _ _ hnd.1]
        exact FS.readFile_writeFile_self _ _ _
      · rw [saveAllPure_cons]
        exact ih _ h1 hnd.2

/-- Characterization of a fully successful `search_papers` call: the
confirmation string and the store after the save loop. -/
theorem search_papers_ok (topic : String) (mr : Nat) (env : Env) (fs : FS)
    (rs : List ArxivPaper) (hp : env.provider = .ok rs) (hm : env.mkdirErr = none)
    (hw : ∀ s, env.writeErr s = none) :
    search_papers topic mr env fs =
      ("Found " ++ toString rs.length ++ " papers on \x27" ++ topic ++
         "\x27. Papers saved to " ++ PAPER_DIR ++ "/ directory.",
       saveAllPure rs (fs.mkdir PAPER_DIR)) := by
  simp only [search_papers, hm, hp, savePapers_no_err env hw, Nat.zero_add]

/-- Characterization of a `search_papers` call whose provider query fails:
the error string is returned and the store is the original one with the
paper directory created. -/
theorem search_papers_err (topic : String) (mr : Nat) (env : Env) (fs : FS)
    (e : String) (hp : env.provider = .error e) (hm : env.mkdirErr = none) :
    search_papers topic mr env fs =
      ("Error searching papers: " ++ e, fs.mkdir PAPER_DIR) := by
  simp only [search_papers, hm, hp]

/-! ### The claims -/

/-- C4: for every topic and max_results, `search_papers` returns a string
and never propagates an exception to the caller (the embedded function is
total); every failure during the provider query or file I/O is caught and
rendered as the string `"Error searching papers: {details}"`, the only other
possible result being the success confirmation string. -/
theorem claim_C4_search_papers_always_string (topic : String) (mr : Nat)
    (env : Env) (fs : FS) :
    (∃ n : Nat, (search_papers topic mr env fs).1 =
        "Found " ++ toString n ++ " papers on \x27" ++ topic ++
          "\x27. Papers saved to " ++ PAPER_DIR ++ "/ directory.") ∨
    (∃ d : String, (search_papers topic mr env fs).1 = "Error searching papers: " ++ d) := by
  cases hm : env.mkdirErr with
  | some e => exact Or.inr ⟨e, by simp only [search_papers, hm]⟩
  | none =>
      cases hp : env.provider with
      | error e => exact Or.inr ⟨e, by simp only [search_papers, hm, hp]⟩
      | ok rs =>
          rcases hsp : savePapers env rs (fs.mkdir PAPER_DIR) 0 with ⟨err, fs2, n⟩
          cases err with
          | some e => exact Or.inr ⟨e, by simp only [search_papers, hm, hp, hsp]⟩
          | none => exact Or.inl ⟨n, by simp only [search_papers, hm, hp, hsp]⟩

/-- C7: for every `paper_id` with no corresponding file in the store,
`extract_info` returns the not-found string that instructs the caller to
search first, for every `info_type`; the embedded function is total, so no
exception is raised. -/
theorem claim_C7_extract_info_not_found (fs : FS) (paper_id info_type : String)
    (h : fs.readFile (extract_filename paper_id) = none) :
    extract_info fs paper_id info_type =
      "Paper " ++ paper_id ++ " not found. Please search for papers first." := by
  unfold extract_info
  rw [h]

/-- Witness for C7 at a concrete empty store. -/
theorem claim_C7_witness :
    FS.readFile ⟨[], []⟩ (extract_filename "abc") = none ∧
    extract_info ⟨[], []⟩ "abc" "summary" =
      "Paper abc not found. Please search for papers first." :=
  ⟨rfl, claim_C7_extract_info_not_found ⟨[], []⟩ "abc" "summary" rfl⟩

/-- C2 fails as stated: for a `paper_id` with no file in the store, an
unrecognized `info_type` yields the not-found string, not the
options-listing string, because the existence check precedes the
`info_type` dispatch. -/
theorem claim_C2_counterexample :
    extract_info ⟨[], []⟩ "nonexistent" "foo" =
      "Paper nonexistent not found. Please search for papers first." ∧
    extract_info ⟨[], []⟩ "nonexistent" "foo" ≠
      "Available info types: summary, authors, abstract, url" := by
  constructor
  · rfl
  · decide

/-- C2 amended: for every `paper_id` whose record file exists in the store,
`extract_info` with an `info_type` outside the four recognized options
returns the fixed options-listing string, whatever the record contains. -/
theorem claim_C2_amended_unknown_info_type (fs : FS) (paper_id info_type : String)
    (v : JsonVal) (hfile : fs.readFile (extract_filename paper_id) = some v)
    (h1 : info_type ≠ "summary") (h2 : info_type ≠ "authors")
    (h3 : info_type ≠ "abstract") (h4 : info_type ≠ "url") :
    extract_info fs paper_id info_type =
      "Available info types: summary, authors, abstract, url" := by
  unfold extract_info
  rw [hfile]
  simp only [h1, h2, h3, h4, if_neg, if_false]
  rfl

/-- Witness for the amended C2 at a concrete one-file store. -/
theorem claim_C2_witness :
    FS.readFile ⟨[], [("papers/x.json", JsonVal.obj [])]⟩ (extract_filename "x") =
      some (JsonVal.obj []) ∧
    extract_info ⟨[], [("papers/x.json", JsonVal.obj [])]⟩ "x" "foo" =
      "Available info types: summary, authors, abstract, url" :=
  ⟨rfl,
   claim_C2_amended_unknown_info_type _ "x" "foo" (JsonVal.obj []) rfl
     (by decide) (by decide) (by decide) (by decide)⟩

/-- C8: `list_paper_folders` returns the no-store message when the paper
directory does not exist; the no-papers message when it exists but holds no
`.json`-suffixed entries; and otherwise the count of `.json` entries with
the comma-joined list of their names, their contents never being parsed. -/
theorem claim_C8_list_paper_folders_cases (fs : FS) :
    (PAPER_DIR ∉ fs.dirs →
      list_paper_folders fs = "No papers directory found. Search for papers first.") ∧
    (PAPER_DIR ∈ fs.dirs →
      (listdirNames fs PAPER_DIR).filter (fun f => strEndsWith f ".json") = [] →
      list_paper_folders fs = "No papers found. Search for papers first.") ∧
    (PAPER_DIR ∈ fs.dirs →
      ∀ js : List String,
        (listdirNames fs PAPER_DIR).filter (fun f => strEndsWith f ".json") = js →
        js ≠ [] →
        list_paper_folders fs =
          "Found " ++ toString js.length ++ " papers: " ++ String.intercalate ", " js) := by
  refine ⟨fun h => by simp [list_paper_folders, h],
          fun h hj => by simp [list_paper_folders, h, hj],
          fun h js hj hne => by simp [list_paper_folders, h, hj, hne]⟩

/-- Witness for C8 covering the three branches at concrete stores. -/
theorem claim_C8_witness :
    list_paper_folders ⟨[], []⟩ = "No papers directory found. Search for papers first." ∧
    list_paper_folders ⟨["papers"], []⟩ = "No papers found. Search for papers first." ∧
    list_paper_folders ⟨["papers"], [("papers/a.json", JsonVal.obj [])]⟩ =
      "Found 1 papers: a.json" := by
  refine ⟨(claim_C8_list_paper_folders_cases ⟨[], []⟩).1 (by decide),
          (claim_C8_list_paper_folders_cases ⟨["papers"], []⟩).2.1 (by decide) (by decide),
          ?_⟩
  have h := (claim_C8_list_paper_folders_cases
      ⟨["papers"], [("papers/a.json", JsonVal.obj [])]⟩).2.2 (by decide)
      ["a.json"] (by decide) (by decide)
  exact h

/-- C9: `create_search_prompt` is deterministic (equal topics give
byte-identical output), and the literal topic occurs inside both the
search-strategy section and the key-questions section, which are the second
and third pieces of the output. -/
theorem claim_C9_create_search_prompt_deterministic (t1 t2 : String) (h : t1 = t2) :
    create_search_prompt t1 = create_search_prompt t2 ∧
    ContainsSub t1 (searchStrategySection t1) ∧
    ContainsSub t1 (keyQuestionsSection t1) ∧
    create_search_prompt t1 =
      promptIntro t1 ++ searchStrategySection t1 ++ keyQuestionsSection t1 ++
        analysisFrameworkSection ++ outputGoalsSection := by
  subst h
  refine ⟨rfl, ?_, ?_, rfl⟩
  · exact ⟨"1. Search Strategy:\n   - Primary keywords: ",
      "\n   - Related terms to explore\n   - Timeline considerations\n\n", rfl⟩
  · exact ⟨"2. Key Questions to Investigate:\n   - What are the current developments in ",
      "?\n   - Who are the leading researchers?\n   - What are the main challenges?\n   - What are the recent breakthroughs?\n\n",
      rfl⟩

/-- Witness for C9 at the topic named by the spec. -/
theorem claim_C9_witness :
    create_search_prompt "quantum computing" = create_search_prompt "quantum computing" ∧
    ContainsSub "quantum computing" (searchStrategySection "quantum computing") ∧
    ContainsSub "quantum computing" (keyQuestionsSection "quantum computing") ∧
    create_search_prompt "quantum computing" =
      promptIntro "quantum computing" ++ searchStrategySection "quantum computing" ++
        keyQuestionsSection "quantum computing" ++ analysisFrameworkSection ++
        outputGoalsSection :=
  claim_C9_create_search_prompt_deterministic "quantum computing" "quantum computing" rfl

/-- C10: `extract_info` consults exactly the unvalidated interpolation
`<store-dir>/<paper_id>.json`; for the separator-containing `paper_id`
`"../x"` the path addressed resolves to `x.json`, which lies outside the
store directory. -/
theorem claim_C10_path_traversal :
    (∀ pid : String, extract_filename pid = PAPER_DIR ++ "/" ++ pid ++ ".json") ∧
    ("../x").toList.contains (Char.ofNat 47) = true ∧
    normalizePath (extract_filename "../x") = "x.json" ∧
    strStartsWith (normalizePath (extract_filename "../x")) (PAPER_DIR ++ "/") = false := by
  refine ⟨fun pid => rfl, ?_, ?_, ?_⟩ <;> decide

/-- Concrete provider result used for C1. -/
def c1Paper : ArxivPaper :=
  ⟨"2301.00001v1", "T", ["A"], "Abs", ⟨2023, 1, 2⟩, "http://u", ["cs.AI"]⟩

/-- Concrete all-successful environment used for C1. -/
def c1Env : Env := ⟨Except.ok [c1Paper], none, fun _ => none⟩

/-- C1 fails as stated: the persisted file of a successfully stored record
does not contain an `id` field — the id lives only in the filename — so it
does not hold the seven PaperRecord fields. -/
theorem claim_C1_counterexample :
    (search_papers "t" 5 c1Env ⟨[], []⟩).2.readFile "papers/2301.00001v1.json" =
      some (paperInfoJson c1Paper) ∧
    ¬ "id" ∈ objKeys (paperInfoJson c1Paper) := by
  constructor
  · rfl
  · decide

/-- C1 amended: every record persisted by a successful `search_papers` call
reads back as a JSON object containing exactly the six fields `title`,
`authors`, `abstract`, `published`, `url`, `categories`; the seventh field
of §3, `id`, appears only as the filename stem. -/
theorem claim_C1_amended_record_fields (topic : String) (mr : Nat) (env : Env)
    (fs : FS) (rs : List ArxivPaper) (hp : env.provider = .ok rs)
    (hm : env.mkdirErr = none) (hw : ∀ s, env.writeErr s = none)
    (p : ArxivPaper) (hmem : p ∈ rs) :
    ∃ q : ArxivPaper,
      (search_papers topic mr env fs).2.readFile (paperFilename p) =
        some (paperInfoJson q) ∧
      objKeys (paperInfoJson q) =
        ["title", "authors", "abstract", "published", "url", "categories"] := by
  rw [search_papers_ok topic mr env fs rs hp hm hw]
  obtain ⟨q, hq1, hq2, hq3⟩ :=
    saveAllPure_readFile_mem rs (paperFilename p) (fs.mkdir PAPER_DIR)
      (List.mem_map_of_mem paperFilename hmem)
  exact ⟨q, hq3, rfl⟩

/-- Witness for the amended C1 at a concrete one-result search. -/
theorem claim_C1_witness :
    ∃ q : ArxivPaper,
      (search_papers "t" 5 c1Env ⟨[], []⟩).2.readFile (paperFilename c1Paper) =
        some (paperInfoJson q) ∧
      objKeys (paperInfoJson q) =
        ["title", "authors", "abstract", "published", "url", "categories"] :=
  claim_C1_amended_record_fields "t" 5 c1Env ⟨[], []⟩ [c1Paper] rfl rfl
    (fun s => rfl) c1Paper (List.mem_singleton.mpr rfl)

/-- C3 fails as stated: a `search_papers` call whose provider query fails
still creates the store directory, because `os.makedirs` runs before the
query inside the `try` block; the store-absent state is not preserved. -/
theorem claim_C3_counterexample :
    (search_papers "t" 5 ⟨Except.error "network down", none, fun _ => none⟩
        ⟨[], []⟩).1 = "Error searching papers: network down" ∧
    PAPER_DIR ∈ (search_papers "t" 5 ⟨Except.error "network down", none, fun _ => none⟩
        ⟨[], []⟩).2.dirs := by
  constructor
  · rfl
  · decide

/-- C3 amended: the store directory is created by every `search_papers` call
whose `makedirs` succeeds — including calls whose provider query fails and
return the error string — and directory absence remains a valid empty-store
state rather than an error for the read operations, which answer with their
normal not-found strings. -/
theorem claim_C3_amended_dir_created_even_on_failure (topic : String) (mr : Nat)
    (env : Env) (fs : FS) (e : String) (hm : env.mkdirErr = none)
    (hp : env.provider = .error e) :
    ((search_papers topic mr env fs).1 = "Error searching papers: " ++ e ∧
      PAPER_DIR ∈ (search_papers topic mr env fs).2.dirs) ∧
    (∀ fs2 : FS, PAPER_DIR ∉ fs2.dirs →
      list_paper_folders fs2 = "No papers directory found. Search for papers first.") ∧
    (∀ (fs2 : FS) (pid it : String), fs2.readFile (extract_filename pid) = none →
      extract_info fs2 pid it =
        "Paper " ++ pid ++ " not found. Please search for papers first.") := by
  refine ⟨?_, ?_, ?_⟩
  · rw [search_papers_err topic mr env fs e hp hm]
    exact ⟨rfl, FS.mem_dirs_mkdir fs PAPER_DIR⟩
  · intro fs2 h
    simp [list_paper_folders, h]
  · intro fs2 pid it h
    unfold extract_info
    rw [h]

/-- Witness for the amended C3 at a concrete failing-provider call. -/
theorem claim_C3_witness :
    ((search_papers "t" 5 ⟨Except.error "boom", none, fun _ => none⟩ ⟨[], []⟩).1 =
        "Error searching papers: " ++ "boom" ∧
      PAPER_DIR ∈ (search_papers "t" 5 ⟨Except.error "boom", none, fun _ => none⟩
          ⟨[], []⟩).2.dirs) ∧
    (∀ fs2 : FS, PAPER_DIR ∉ fs2.dirs →
      list_paper_folders fs2 = "No papers directory found. Search for papers first.") ∧
    (∀ (fs2 : FS) (pid it : String), fs2.readFile (extract_filename pid) = none →
      extract_info fs2 pid it =
        "Paper " ++ pid ++ " not found. Please search for papers first.") :=
  claim_C3_amended_dir_created_even_on_failure "t" 5
    ⟨Except.error "boom", none, fun _ => none⟩ ⟨[], []⟩ "boom" rfl rfl

/-- C5: repeating the same successful search leaves the number of files in
the store unchanged — identically-identified records are overwritten, not
duplicated — and an overwrite replaces the stored record wholesale (the
value read back is exactly the value last written, with no merging). -/
theorem claim_C5_search_idempotent_file_count (topic : String) (mr : Nat)
    (env : Env) (fs : FS) (rs : List ArxivPaper) (hp : env.provider = .ok rs)
    (hm : env.mkdirErr = none) (hw : ∀ s, env.writeErr s = none) :
    ((search_papers topic mr env (search_papers topic mr env fs).2).2).files.length =
      ((search_papers topic mr env fs).2).files.length ∧
    (∀ (fs2 : FS) (path : String) (v : JsonVal),
      (fs2.writeFile path v).readFile path = some v) := by
  constructor
  · rw [search_papers_ok topic mr env fs rs hp hm hw]
    rw [search_papers_ok topic mr env _ rs hp hm hw]
    show (saveAllPure rs ((saveAllPure rs (fs.mkdir PAPER_DIR)).mkdir PAPER_DIR)).files.length =
      (saveAllPure rs (fs.mkdir PAPER_DIR)).files.length
    have hkeys : ∀ p ∈ rs,
        paperFilename p ∈ ((saveAllPure rs (fs.mkdir PAPER_DIR)).mkdir PAPER_DIR).keys := by
      intro p hp2
      rw [FS.keys_mkdir]
      exact saveAllPure_mem_keys rs p _ hp2
    rw [saveAllPure_length rs _ hkeys, FS.files_mkdir]
  · intro fs2 path v
    exact FS.readFile_writeFile_self fs2 path v

/-- Concrete provider result used for C5. -/
def c5Paper : ArxivPaper :=
  ⟨"0001.00002v3", "T5", ["A5"], "Abs5", ⟨2019, 7, 4⟩, "http://u5", ["math.CO"]⟩

/-- Concrete all-successful environment used for C5. -/
def c5Env : Env := ⟨Except.ok [c5Paper], none, fun _ => none⟩

/-- Witness for C5 at a concrete repeated one-result search. -/
theorem claim_C5_witness :
    ((search_papers "t" 5 c5Env (search_papers "t" 5 c5Env ⟨[], []⟩).2).2).files.length =
      ((search_papers "t" 5 c5Env ⟨[], []⟩).2).files.length ∧
    (∀ (fs2 : FS) (path : String) (v : JsonVal),
      (fs2.writeFile path v).readFile path = some v) :=
  claim_C5_search_idempotent_file_count "t" 5 c5Env ⟨[], []⟩ [c5Paper] rfl rfl
    (fun s => rfl)

/-- C6: for every record written by a successful search whose result ids are
pairwise distinct, `extract_info` on its id with `info_type = "url"` returns
exactly the `url` field value that was written. -/
theorem claim_C6_url_roundtrip (topic : String) (mr : Nat) (env : Env) (fs : FS)
    (rs : List ArxivPaper) (hp : env.provider = .ok rs) (hm : env.mkdirErr = none)
    (hw : ∀ s, env.writeErr s = none)
    (hnd : (rs.map ArxivPaper.shortId).Nodup) (p : ArxivPaper) (hmem : p ∈ rs) :
    extract_info (search_papers topic mr env fs).2 p.shortId "url" = p.pdfUrl := by
  rw [search_papers_ok topic mr env fs rs hp hm hw]
  show extract_info (saveAllPure rs (fs.mkdir PAPER_DIR)) p.shortId "url" = p.pdfUrl
  have hfn : rs.map paperFilename =
      (rs.map ArxivPaper.shortId).map (fun s => PAPER_DIR ++ "/" ++ s ++ ".json") := by
    rw [List.map_map]
    rfl
  have hinj : Function.Injective (fun s => PAPER_DIR ++ "/" ++ s ++ ".json") := by
    intro a b hab
    have h1 : (PAPER_DIR ++ "/" ++ a ++ ".json").data =
        (PAPER_DIR ++ "/" ++ b ++ ".json").data := congrArg String.data hab
    simp only [String.data_append, List.append_assoc] at h1
    have h2 := List.append_cancel_left h1
    have h3 := List.append_cancel_left h2
    have h4 := List.append_cancel_right h3
    exact String.ext h4
  have hndf : (rs.map paperFilename).Nodup := by
    rw [hfn]
    exact hnd.map hinj
  have hread : (saveAllPure rs (fs.mkdir PAPER_DIR)).readFile
      (extract_filename p.shortId) = some (paperInfoJson p) :=
    saveAllPure_readFile_nodup rs p (fs.mkdir PAPER_DIR) hmem hndf
  unfold extract_info
  rw [hread]
  rfl

/-- Concrete provider result used for C6. -/
def c6Paper : ArxivPaper :=
  ⟨"1234.5678v2", "Title", ["X"], "S", ⟨2020, 12, 31⟩, "http://pdf", ["cs.LG"]⟩

/-- Concrete all-successful environment used for C6. -/
def c6Env : Env := ⟨Except.ok [c6Paper], none, fun _ => none⟩

/-- Witness for C6 at a concrete one-result search. -/
theorem claim_C6_witness :
    extract_info (search_papers "top" 3 c6Env ⟨[], []⟩).2 "1234.5678v2" "url" =
      "http://pdf" :=
  claim_C6_url_roundtrip "top" 3 c6Env ⟨[], []⟩ [c6Paper] rfl rfl (fun s => rfl)
    (by decide) c6Paper (List.mem_singleton.mpr rfl)
